import Mathlib

/-!
Verification of the uAssistant backend (intent planner, offering registry and
transaction builder). The definitions below are a shallow embedding of the
TypeScript sources `src/routes/chat.ts`, `src/config/uShareOfferings.ts` and
`src/lib/uShareRegistry.ts`; library calls at the system boundary
(`viem.parseUnits`, `viem.encodeFunctionData`, `JSON.parse`, `crypto.randomUUID`,
the OpenAI completion client) are modelled at their documented interfaces.
Machine integers are `Nat`/`Int`; JavaScript `BigInt` arithmetic is exact, so no
modular reduction is needed.
-/

set_option autoImplicit false

namespace UAssist

/-! ### JavaScript string primitives

The backend manipulates ASCII strings (hex identifiers, amounts, ticker
symbols, short English phrases).  The helpers below model the JavaScript
string methods used by the sources (`trim`, `toLowerCase`, `includes`,
`startsWith`, `padStart`) on Lean strings; they agree with JavaScript on the
ASCII inputs the program deals in. -/

/-- Model of `String.prototype.trim`. -/
def jsTrim (s : String) : String :=
  String.mk (((s.data.dropWhile Char.isWhitespace).reverse.dropWhile Char.isWhitespace).reverse)

/-- Model of `String.prototype.toLowerCase` (ASCII case folding). -/
def jsLower (s : String) : String :=
  String.mk (s.data.map Char.toLower)

/-- The `listIsPrefixOf a b`: `a` is a prefix of `b`. -/
def listIsPrefixOf : List Char → List Char → Bool
  | [], _ => true
  | _ :: _, [] => false
  | a :: as, b :: bs => a = b && listIsPrefixOf as bs

/-- The `listIsInfixOf sub t`: `sub` occurs contiguously inside `t`. -/
def listIsInfixOf (sub : List Char) : List Char → Bool
  | [] => listIsPrefixOf sub []
  | b :: bs => listIsPrefixOf sub (b :: bs) || listIsInfixOf sub bs

/-- Model of `t.includes(sub)`: `sub` occurs as a contiguous substring of `t`. -/
def strIncludes (t sub : String) : Bool :=
  listIsInfixOf sub.data t.data

/-- Model of `t.startsWith(p)`. -/
def strStartsWith (t p : String) : Bool :=
  listIsPrefixOf p.data t.data

/-- Model of `s.padStart(len, c)`. -/
def padStart (s : String) (len : Nat) (c : Char) : String :=
  String.mk (List.replicate (len - s.data.length) c ++ s.data)

/-- Hex digit as accepted by the `[a-fA-F0-9]` character class. -/
def isHexDigitChar (c : Char) : Bool :=
  c.isDigit || ('a' ≤ c && c ≤ 'f') || ('A' ≤ c && c ≤ 'F')

/-- The regex `^0x[a-fA-F0-9]{40}$` (an EVM address). -/
def isEvmAddress (s : String) : Bool :=
  match s.data with
  | '0' :: 'x' :: rest => rest.length = 40 && rest.all isHexDigitChar
  | _ => false

/-- The regex `^0x[a-fA-F0-9]{64}$` (a bytes32 identifier). -/
def isBytes32 (s : String) : Bool :=
  match s.data with
  | '0' :: 'x' :: rest => rest.length = 64 && rest.all isHexDigitChar
  | _ => false

/-- Numeric value of a decimal digit string (the behaviour of JavaScript
`BigInt(s)` on a string already validated against `/^\d+$/`, which is the
only way the sources reach such a conversion). -/
def decVal (cs : List Char) : Nat :=
  cs.foldl (fun a c => a * 10 + (c.toNat - '0'.toNat)) 0

/-- The `decVal` on a whole string. -/
def decValStr (s : String) : Nat := decVal s.data

/-! ### Data model (`src/routes/chat.ts` schemas) -/

inductive Role where
  | user
  | assistant
  deriving DecidableEq, Repr

structure ChatMessage where
  role : Role
  content : String
  deriving DecidableEq, Repr

/-- The `VestingDataSchema`: beneficiary address plus uint-string fields. -/
structure VestingData where
  beneficiary : String
  totalAmount : String
  cliffInSeconds : String
  vestingInSeconds : String
  tgePercentage : String
  deriving DecidableEq, Repr

/-- The `context.vesting`: the vesting record and its Merkle proof. -/
structure VestingCtx where
  data : VestingData
  merkleProof : List String
  deriving DecidableEq, Repr

structure Context where
  account : Option String := none
  vesting : Option VestingCtx := none
  deriving DecidableEq, Repr

/-- The `ChatBodySchema`: the validated POST body. -/
structure ChatBody where
  messages : List ChatMessage
  context : Option Context := none
  deriving DecidableEq, Repr

/-- The `ActionTypeSchema` enum. -/
inductive ActionType where
  | STAKE
  | UNSTAKE
  | STAKE_ALL
  | UNSTAKE_ALL
  | BUY_USHARE
  | SELL_USHARE
  | VOTE
  | CLAIM_VESTING
  | QUESTION
  | UNSUPPORTED
  deriving DecidableEq, Repr

/-- The `PlannedSchema`: the structured intent produced by the planner. -/
structure Planned where
  actionType : ActionType
  interpretation : String
  userMessage : String
  amount : Option String := none
  uShareId : Option String := none
  proposalId : Option Nat := none
  vote : Option Bool := none
  warnings : Option (List String) := none
  docsUrl : Option String := none
  supportEmail : Option String := none
  deriving DecidableEq, Repr

/-- Symbolic form of the calldata produced by `viem.encodeFunctionData`:
the ABI encoding is injective on (function, arguments), so a transaction
preview is modelled by the function being called and its decoded arguments. -/
inductive CallData where
  | stake (amount : Int)
  | unstake (amount : Int)
  | stakeAll
  | unstakeAll
  | vote (proposalId : Nat) (support : Bool)
  | approve (spender : String) (amount : Int)
  | buyuShare (uShareId : String) (amount : Int)
  | claim (beneficiary : String) (totalAmount : Nat) (cliffInSeconds : Nat)
      (vestingInSeconds : Nat) (tgePercentage : Nat) (merkleProof : List String)
  deriving DecidableEq, Repr

/-- The `TxPreview`. -/
structure TxPreview where
  chainId : Nat
  «to» : String
  data : CallData
  value : String
  deriving DecidableEq, Repr

/-- The `AssistantPlan`: the assembled response object. -/
structure AssistantPlan where
  id : String
  actionType : ActionType
  interpretation : String
  userMessage : String
  warnings : List String
  txs : List TxPreview
  tx : Option TxPreview
  docsUrl : Option String := none
  supportEmail : Option String := none
  deriving DecidableEq, Repr

/-- The `UShareOffering` (`src/config/uShareOfferings.ts`). -/
structure UShareOffering where
  name : String
  symbol : String
  uShareId : String
  uShareToken : String
  decimals : Option Nat := none
  deriving DecidableEq, Repr

/-- The `UShareSelection`. -/
structure UShareSelection where
  id : Option String
  label : Option String := none
  decimals : Option Nat := none
  deriving DecidableEq, Repr

/-- The configuration the builder reads (`env` plus `getEnvExtras()`behaviour):
the address variables are raw optional environment strings — `asAddress`
validates them at use; the decimal overrides arrive already coerced to
positive integers by the env schema, so `toPositiveInt(v, 18)` reduces to a
default of 18 when the variable is absent. -/
structure Config where
  CHAIN_ID : Nat := 421614
  URANO_DECIMALS : Option Nat := none
  USHARE_DECIMALS : Option Nat := none
  URANO_STAKING : Option String := none
  URANO_GOVERNANCE : Option String := none
  USHARE_MARKET : Option String := none
  VESTING_ADDRESS : Option String := none
  USDC : Option String := none
  DOCS_URL : Option String := none
  SUPPORT_EMAIL : Option String := none
  deriving DecidableEq, Repr

/-! ### Offering registry (`src/config/uShareOfferings.ts`) -/

/-- Hex digits of `n`, most significant first, lowercase — the behaviour of
JavaScript `n.toString(16)` for a non-negative `BigInt`.  Structural recursion
on a fuel argument (`n + 1` steps always suffice since `n / 16 < n`). -/
def hexDigitsAux : Nat → Nat → List Char
  | 0, _ => []
  | fuel + 1, n =>
    if n < 16 then [Nat.digitChar n]
    else hexDigitsAux fuel (n / 16) ++ [Nat.digitChar (n % 16)]

/-- The `n.toString(16)` as a digit list. -/
def hexDigits (n : Nat) : List Char := hexDigitsAux (n + 1) n

/-- The `decimalStringToBytes32` (identically `decimalToBytes32Hex` of
`src/lib/uShareRegistry.ts`): `BigInt(dec).toString(16)` zero-padded to 64 hex
digits; throws when the hex form exceeds 64 digits.  The negative-value throw
of the source is unreachable because `dec` is validated against `/^\d+$/`
before the call, so values are naturals here. -/
def decimalStringToBytes32 (dec : String) : Except String String :=
  if dec.data.all Char.isDigit && dec.data ≠ [] then
    let n := decValStr dec
    let hex := String.mk (hexDigits n)
    if hex.data.length > 64 then .error "uShareId is too large for bytes32"
    else .ok ("0x" ++ padStart hex 64 '0')
  else .error "Cannot convert to a BigInt"

/-- The `findOfferingById`: case-insensitive lookup of a bytes32 id. -/
def findOfferingById (offerings : List UShareOffering) (id : String) :
    Option UShareOffering :=
  offerings.find? (fun o => jsLower o.uShareId = jsLower id)

/-- First match of the unanchored regex `/0x[a-fA-F0-9]{64}/` in a character
stream: at each start position try `0x` followed by 64 hex digits, else
advance one character — exactly the leftmost-match rule of the JS engine. -/
def scanBytes32 : List Char → Option String
  | [] => none
  | '0' :: 'x' :: tail =>
    let hex := tail.take 64
    if hex.length = 64 && hex.all isHexDigitChar then
      some (String.mk ('0' :: 'x' :: hex))
    else scanBytes32 ('x' :: tail)
  | _ :: rest => scanBytes32 rest

/-- The `extractBytes32FromText`. -/
def extractBytes32FromText (text : String) : Option String :=
  scanBytes32 text.data

/-- The `selectionFromOffering`. -/
def selectionFromOffering (o : UShareOffering) : UShareSelection :=
  { id := some o.uShareId
    label := some (o.name ++ " (" ++ o.symbol ++ ")")
    decimals := o.decimals }

/-- The symbol/name matching test of the `for (const o of offerings)` loop:
the space-padded, lowercased message includes the padded or bare lowercased
symbol or name. -/
def offeringTextMatch (t : String) (o : UShareOffering) : Bool :=
  let sym := jsLower o.symbol
  let nm := jsLower o.name
  strIncludes t (" " ++ sym ++ " ") || strIncludes t (" " ++ nm ++ " ") ||
    strIncludes t sym || strIncludes t nm

/-- The `resolveUShareSelectionFromText`: pasted bytes32 first, then the single
configured offering, then symbol/name substring match. -/
def resolveUShareSelectionFromText (offerings : List UShareOffering)
    (userText : String) : UShareSelection :=
  match extractBytes32FromText userText with
  | some pasted =>
    match findOfferingById offerings pasted with
    | some found => selectionFromOffering found
    | none => { id := some pasted }
  | none =>
    if h : offerings.length = 1 then
      selectionFromOffering (offerings.get ⟨0, by omega⟩)
    else
      let t := " " ++ jsLower (jsTrim userText) ++ " "
      match offerings.find? (offeringTextMatch t) with
      | some o => selectionFromOffering o
      | none => { id := none }

/-! ### Intent planner helpers (`src/routes/chat.ts`) -/

/-- The `lastUserMessage`: the most recent user-role message, trimmed; when there
is none, the last message of any role, trimmed, or the empty string. -/
def lastUserMessage (body : ChatBody) : String :=
  match body.messages.reverse.find? (fun m => m.role = Role.user) with
  | some m => jsTrim m.content
  | none =>
    match body.messages.getLast? with
    | some m => jsTrim m.content
    | none => ""

/-- The exact-phrase lexicon of `isSmallTalkOrHelp`. -/
def smallTalkExact : List String :=
  ["hi", "hello", "hey", "yo", "gm", "good morning", "good afternoon",
   "good evening", "thanks", "thank you", "thx", "ty", "salut", "bonjour",
   "salam", "slm", "help", "what can you do", "who are you"]

/-- Word characters for the regex `\b` boundary (`[A-Za-z0-9_]`). -/
def isWordChar (c : Char) : Bool :=
  c.isAlpha || c.isDigit || c = '_'

/-- The `^(p1|p2|...)\b` matching: some alternative is a prefix of `t` and is
followed by the end of the string or a non-word character. -/
def matchesPrefixWordBounded (t : String) (ps : List String) : Bool :=
  ps.any (fun p =>
    strStartsWith t p &&
      (match t.data.drop p.data.length with
       | [] => true
       | c :: _ => !isWordChar c))

/-- The `isSmallTalkOrHelp`. -/
def isSmallTalkOrHelp (text : String) : Bool :=
  let t := jsLower (jsTrim text)
  if t = "" then false
  else if smallTalkExact.contains t then true
  else if t.data.length ≤ 12 &&
      matchesPrefixWordBounded t
        ["hi", "hey", "hello", "gm", "yo", "salut", "bonjour", "salam", "slm"] then
    true
  else if matchesPrefixWordBounded t ["thanks", "thank you", "thx", "ty"] then
    true
  else false

/-- The `helpMessage`: the canned help intent. -/
def helpMessage : Planned :=
  { actionType := .QUESTION
    interpretation := "Help / greeting"
    userMessage := "Hi. I can help you stake/unstake (amount or all), buy uShare (mention symbol or paste uShareId), vote on proposals, or claim vesting tokens. What would you like to do?"
    warnings := some [] }

/-- Greedy number match of `/(\d+(?:[.,]\d+)?)/` starting at a digit. -/
def matchNumberAt (cs : List Char) : List Char :=
  let ds := cs.takeWhile Char.isDigit
  match cs.dropWhile Char.isDigit with
  | sep :: r =>
    if sep = '.' || sep = ',' then
      let ds2 := r.takeWhile Char.isDigit
      if ds2 ≠ [] then ds ++ sep :: ds2 else ds
    else ds
  | [] => ds

/-- Leftmost match of `/(\d+(?:[.,]\d+)?)/`: scan for the first digit. -/
def findFirstNumber : List Char → Option (List Char)
  | [] => none
  | c :: rest =>
    if c.isDigit then some (matchNumberAt (c :: rest))
    else findFirstNumber rest

/-- The `m[1].replace(",", ".")`: replace only the first comma. -/
def replaceFirstComma : List Char → List Char
  | [] => []
  | c :: r => if c = ',' then '.' :: r else c :: replaceFirstComma r

/-- The `extractFirstNumber`. -/
def extractFirstNumber (text : String) : Option String :=
  (findFirstNumber text.data).map (fun cs => String.mk (replaceFirstComma cs))

/-- The `formatOfferingsForPrompt`. -/
def formatOfferingsForPrompt (offerings : List UShareOffering) : String :=
  if offerings.length = 0 then "No uShares configured on backend."
  else String.intercalate " | "
    (offerings.map (fun o => o.name ++ " (" ++ o.symbol ++ "): " ++ o.uShareId))

/-- JavaScript falsiness of an optional string field (`undefined` or `""`). -/
def jsMissing (v : Option String) : Bool :=
  match v with
  | none => true
  | some s => s = ""

/-- The no-resolution branch of the buy repair: clarifying question plus
warning. -/
def missingUShareId (out : Planned) (w : List String)
    (offerings : List UShareOffering) : Planned × List String :=
  let list := formatOfferingsForPrompt offerings
  ({ out with
      interpretation :=
        if out.interpretation = "" then
          "User wants to buy uShares but did not specify which uShareId"
        else out.interpretation
      userMessage :=
        if offerings.length > 0 then
          "Which uShare do you want to buy? Paste the uShareId (bytes32) or mention the symbol. Available: " ++ list
        else
          "Please paste the uShareId (bytes32) of the uShare you want to buy (0x + 64 hex chars)." },
   w ++ ["Missing uShareId (bytes32). Paste it like: 0x<64 hex chars>."])

/-- The `coercePlanFromUserText`: deterministic post-LLM repair. -/
def coercePlanFromUserText (plan : Planned) (last : String)
    (offerings : List UShareOffering) : Planned :=
  let w0 := plan.warnings.getD []
  let needsAmount :=
    plan.actionType = ActionType.BUY_USHARE || plan.actionType = ActionType.STAKE ||
      plan.actionType = ActionType.UNSTAKE
  let amountMissing :=
    match plan.amount with
    | none => true
    | some a => jsTrim a = ""
  let step1 :=
    if needsAmount && amountMissing then
      match extractFirstNumber last with
      | some inferred => ({ plan with amount := some inferred }, w0)
      | none =>
        (plan,
         w0 ++ ["Missing amount. Example: \x27buy 100 uShares\x27 or \x27stake 250\x27."])
    else (plan, w0)
  let out1 := step1.1
  let w1 := step1.2
  let out2 :=
    if out1.actionType = ActionType.SELL_USHARE then
      { out1 with
          actionType := .UNSUPPORTED
          interpretation := "Sell uShare is not supported by this contract"
          userMessage := "I can\x27t do that yet. I can help you stake/unstake, buy uShare, vote, or claim vesting tokens." }
    else out1
  let step3 :=
    if out2.actionType = ActionType.BUY_USHARE && jsMissing out2.uShareId then
      let sel := resolveUShareSelectionFromText offerings last
      match sel.id with
      | some selId =>
        if selId ≠ "" then ({ out2 with uShareId := some selId }, w1)
        else missingUShareId out2 w1 offerings
      | none => missingUShareId out2 w1 offerings
    else (out2, w1)
  let out3 := step3.1
  let w3 := step3.2
  if w3 ≠ [] then { out3 with warnings := some w3 } else out3

/-! ### Provider reply and schema validation -/

/-- JSON values.  Numbers are split into integral values (the only kind the
schema can accept for `proposalId`) and a marker for non-integral numbers. -/
inductive Json where
  | null
  | bool (b : Bool)
  | num (v : Int)
  | numNonInt
  | str (s : String)
  | arr (elems : List Json)
  | obj (fields : List (String × Json))

def Json.asString? : Json → Option String
  | .str s => some s
  | _ => none

def Json.asBool? : Json → Option Bool
  | .bool b => some b
  | _ => none

/-- The `z.enum([...])` for `ActionTypeSchema`. -/
def parseActionType : String → Option ActionType
  | "STAKE" => some .STAKE
  | "UNSTAKE" => some .UNSTAKE
  | "STAKE_ALL" => some .STAKE_ALL
  | "UNSTAKE_ALL" => some .UNSTAKE_ALL
  | "BUY_USHARE" => some .BUY_USHARE
  | "SELL_USHARE" => some .SELL_USHARE
  | "VOTE" => some .VOTE
  | "CLAIM_VESTING" => some .CLAIM_VESTING
  | "QUESTION" => some .QUESTION
  | "UNSUPPORTED" => some .UNSUPPORTED
  | _ => none

/-- The `z.string().min(lo).max(hi)`. -/
def boundedStr (j : Json) (lo hi : Nat) : Option String := do
  let s ← j.asString?
  if lo ≤ s.data.length && s.data.length ≤ hi then some s else none

/-- An optional schema field: absent keys succeed with `none`; a present key
must satisfy the field validator. -/
def optField {α : Type} (v : Option Json) (f : Json → Option α) :
    Option (Option α) :=
  match v with
  | none => some none
  | some j => (f j).map some

/-- Boundary model of `z.string().url()` (zod delegates to the WHATWG `URL`
parser): a non-empty scheme of URL code points followed by a colon. -/
def jsUrlValid (s : String) : Bool :=
  match s.data.dropWhile (fun c => c ≠ ':') with
  | ':' :: _ =>
    let scheme := s.data.takeWhile (fun c => c ≠ ':')
    scheme ≠ [] && scheme.all (fun c => c.isAlpha || c.isDigit || c = '+' || c = '-' || c = '.')
  | _ => false

/-- Boundary model of `z.string().email()`: local part, `@`, dotted domain. -/
def jsEmailValid (s : String) : Bool :=
  let before := s.data.takeWhile (fun c => c ≠ '@')
  match s.data.dropWhile (fun c => c ≠ '@') with
  | '@' :: domain =>
    before ≠ [] && domain ≠ [] && domain.all (fun c => c ≠ '@') && domain.contains '.'
  | _ => false

/-- The `Bytes32Schema.optional()` on the `uShareId` field. -/
def parseUShareIdField (v : Json) : Option String :=
  v.asString?.bind (fun s => if isBytes32 s then some s else none)

/-- The `z.number().int().nonnegative()` on `proposalId`. -/
def parseProposalIdField (v : Json) : Option Nat :=
  match v with
  | .num n => if 0 ≤ n then some n.toNat else none
  | _ => none

/-- The `z.array(z.string().min(1).max(300))` on `warnings`. -/
def parseWarningsField (v : Json) : Option (List String) :=
  match v with
  | .arr xs => xs.mapM (fun e => boundedStr e 1 300)
  | _ => none

def parseUrlField (v : Json) : Option String :=
  v.asString?.bind (fun s => if jsUrlValid s then some s else none)

def parseEmailField (v : Json) : Option String :=
  v.asString?.bind (fun s => if jsEmailValid s then some s else none)

/-- The three required `PlannedSchema` fields. -/
def parseRequiredFields (fields : List (String × Json)) :
    Option (ActionType × String × String) :=
  ((fields.lookup "actionType").bind Json.asString?).bind (fun actS =>
    (parseActionType actS).bind (fun act =>
      ((fields.lookup "interpretation").bind (fun v => boundedStr v 1 300)).bind (fun interp =>
        ((fields.lookup "userMessage").bind (fun v => boundedStr v 1 1200)).map (fun um =>
          (act, interp, um)))))

/-- The seven optional `PlannedSchema` fields. -/
def parseOptionalFields (fields : List (String × Json)) :
    Option ((Option String × Option String × Option Nat) ×
      (Option Bool × Option (List String) × Option String × Option String)) :=
  (optField (fields.lookup "amount") Json.asString?).bind (fun amount =>
    (optField (fields.lookup "uShareId") parseUShareIdField).bind (fun uid =>
      (optField (fields.lookup "proposalId") parseProposalIdField).bind (fun pid =>
        (optField (fields.lookup "vote") Json.asBool?).bind (fun vote =>
          (optField (fields.lookup "warnings") parseWarningsField).bind (fun warns =>
            (optField (fields.lookup "docsUrl") parseUrlField).bind (fun docs =>
              (optField (fields.lookup "supportEmail") parseEmailField).map (fun email =>
                ((amount, uid, pid), (vote, warns, docs, email)))))))))

/-- The `PlannedSchema.safeParse`: `none` models `success: false`. -/
def plannedSafeParse (j : Json) : Option Planned :=
  match j with
  | .obj fields =>
    (parseRequiredFields fields).bind (fun r =>
      (parseOptionalFields fields).map (fun o =>
        { actionType := r.1, interpretation := r.2.1, userMessage := r.2.2,
          amount := o.1.1, uShareId := o.1.2.1, proposalId := o.1.2.2,
          vote := o.2.1, warnings := o.2.2.1, docsUrl := o.2.2.2.1,
          supportEmail := o.2.2.2.2 }))
  | _ => none

/-- Outcome of the external completion call, observed after `JSON.parse`:
the call raised; the reply text was not JSON; or a parsed JSON value.
A `null` reply content defaults to the text "\x7b\x7d", i.e. `.json (.obj [])`. -/
inductive ProviderReply where
  | raised
  | unparsable
  | json (j : Json)

/-- The `planFromMessages`.  The second component records whether the external
completion provider was invoked (`false` exactly on the small-talk shortcut,
which returns before the provider call in the source). -/
def planFromMessages (body : ChatBody) (offerings : List UShareOffering)
    (reply : ProviderReply) : Planned × Bool :=
  let last := lastUserMessage body
  if isSmallTalkOrHelp last then (helpMessage, false)
  else
    (match reply with
     | .raised => helpMessage
     | .unparsable => helpMessage
     | .json j =>
       match plannedSafeParse j with
       | none => helpMessage
       | some parsed => coercePlanFromUserText parsed last offerings,
     true)

/-! ### Transaction builder (`buildTxs`) -/

/-- The `normalizeAmountString`: trim, then delete every comma. -/
def normalizeAmountString (input : String) : String :=
  String.mk ((jsTrim input).data.filter (fun c => c ≠ ','))

/-- The `asAddress`: validate a configured address or throw. -/
def asAddress (v : Option String) (name : String) : Except String String :=
  let s := jsTrim (v.getD "")
  if isEvmAddress s then .ok s
  else .error ("Missing/invalid " ++ name ++ " address env var")

/-- The `(1n << 256n) - 1n`. -/
def MAX_UINT256 : Int := 2 ^ 256 - 1

/-- The regex `^(-?)([0-9]*)\.?([0-9]*)$` guarding `viem.parseUnits`. -/
def decimalNumberShape (cs : List Char) : Bool :=
  let body := match cs with | '-' :: r => r | r => r
  match body.dropWhile Char.isDigit with
  | [] => true
  | '.' :: r => r.all Char.isDigit
  | _ => false

def stripTrailingZeros (l : List Char) : List Char :=
  (l.reverse.dropWhile (fun c => c = '0')).reverse

/-- Boundary model of `viem.parseUnits(value, decimals)`: scale a signed
decimal string by `10^decimals`, rounding half-up at the cut when the
fraction carries more than `decimals` digits; reject strings outside the
decimal-number shape (the source then throws `InvalidDecimalNumberError`). -/
def parseUnits (value : String) (decimals : Nat) : Except String Int :=
  let cs := value.data
  if !decimalNumberShape cs then
    .error ("Number " ++ value ++ " is not a valid decimal number.")
  else
    let signSplit := match cs with | '-' :: r => (true, r) | r => (false, r)
    let neg := signSplit.1
    let rest := signSplit.2
    let intDigits := rest.takeWhile Char.isDigit
    let fracDigits := match rest.dropWhile Char.isDigit with
      | '.' :: f => f
      | _ => []
    let frac := stripTrailingZeros fracDigits
    let i := decVal intDigits
    let L := frac.length
    let f := decVal frac
    let mag : Nat :=
      if L ≤ decimals then i * 10 ^ decimals + f * 10 ^ (decimals - L)
      else
        let divisor := 10 ^ (L - decimals)
        i * 10 ^ decimals + f / divisor + (if divisor ≤ 2 * (f % divisor) then 1 else 0)
    .ok (if neg then -(mag : Int) else (mag : Int))

/-- The informational warning always attached to a successful buy. -/
def skipTxWarning : String :=
  "This action returns 2 transactions: (1) USDC approval to the market, then (2) buy. If you already approved USDC for this market, you can skip tx #1."

/-- The five contract addresses `buildTxs` resolves before dispatching. -/
structure ContractAddrs where
  STAKING : String
  GOV : String
  MARKET : String
  VESTING : String
  USDC : String
  deriving DecidableEq, Repr

/-- The `switch (plan.actionType)` body of `buildTxs`, after the five
`asAddress` lookups succeeded. -/
def buildTxsWith (plan : Planned) (body : ChatBody)
    (offerings : List UShareOffering) (cfg : Config) (A : ContractAddrs) :
    Except String (List TxPreview × List String) :=
  let warnings := plan.warnings.getD []
  let chainId := cfg.CHAIN_ID
  let uranoDecimals := cfg.URANO_DECIMALS.getD 18
  let defaultUShareDecimals := cfg.USHARE_DECIMALS.getD 18
  match plan.actionType with
  | .STAKE =>
    match plan.amount with
    | none => .ok ([], warnings ++ ["Missing amount."])
    | some a =>
      if a = "" then .ok ([], warnings ++ ["Missing amount."])
      else
        match parseUnits (normalizeAmountString a) uranoDecimals with
        | .error e => .error e
        | .ok amt => .ok ([⟨chainId, A.STAKING, .stake amt, "0"⟩], warnings)
  | .UNSTAKE =>
    match plan.amount with
    | none => .ok ([], warnings ++ ["Missing amount."])
    | some a =>
      if a = "" then .ok ([], warnings ++ ["Missing amount."])
      else
        match parseUnits (normalizeAmountString a) uranoDecimals with
        | .error e => .error e
        | .ok amt => .ok ([⟨chainId, A.STAKING, .unstake amt, "0"⟩], warnings)
  | .STAKE_ALL => .ok ([⟨chainId, A.STAKING, .stakeAll, "0"⟩], warnings)
  | .UNSTAKE_ALL => .ok ([⟨chainId, A.STAKING, .unstakeAll, "0"⟩], warnings)
  | .VOTE =>
    match plan.proposalId, plan.vote with
    | some pid, some support =>
      .ok ([⟨chainId, A.GOV, .vote pid support, "0"⟩], warnings)
    | _, _ => .ok ([], warnings ++ ["Missing proposalId or vote choice."])
  | .BUY_USHARE =>
    match plan.amount with
    | none => .ok ([], warnings ++ ["Missing amount."])
    | some a =>
      if a = "" then .ok ([], warnings ++ ["Missing amount."])
      else
        match plan.uShareId with
        | none => .ok ([], warnings ++ ["Missing uShareId (bytes32)."])
        | some uid =>
          if uid = "" then .ok ([], warnings ++ ["Missing uShareId (bytes32)."])
          else
            let found := offerings.find? (fun o => jsLower o.uShareId = jsLower uid)
            let decs := (found.bind (fun o => o.decimals)).getD defaultUShareDecimals
            match parseUnits (normalizeAmountString a) decs with
            | .error e => .error e
            | .ok amt =>
              let w2 := warnings ++ [skipTxWarning]
              let w3 := match found with
                | some fo => w2 ++ ["Selected uShare: " ++ fo.name ++ " (" ++ fo.symbol ++ ")."]
                | none => w2
              .ok ([⟨chainId, A.USDC, .approve A.MARKET MAX_UINT256, "0"⟩,
                    ⟨chainId, A.MARKET, .buyuShare uid amt, "0"⟩], w3)
  | .CLAIM_VESTING =>
    match body.context.bind (fun c => c.account) with
    | none =>
      .ok ([], warnings ++ ["To claim vesting, I need your connected account (context.account)."])
    | some acct =>
      if acct = "" then
        .ok ([], warnings ++ ["To claim vesting, I need your connected account (context.account)."])
      else
        match body.context.bind (fun c => c.vesting) with
        | none =>
          .ok ([], warnings ++ ["To claim vesting, I need your vesting record + Merkle proof (context.vesting)."])
        | some vest =>
          if jsLower acct ≠ jsLower vest.data.beneficiary then
            .ok ([], warnings ++ ["Vesting claim blocked: connected account does not match the vesting beneficiary."])
          else
            .ok ([⟨chainId, A.VESTING,
                   .claim vest.data.beneficiary (decValStr vest.data.totalAmount)
                     (decValStr vest.data.cliffInSeconds)
                     (decValStr vest.data.vestingInSeconds)
                     (decValStr vest.data.tgePercentage) vest.merkleProof,
                   "0"⟩], warnings)
  | .QUESTION => .ok ([], warnings)
  | .UNSUPPORTED => .ok ([], warnings)
  | .SELL_USHARE => .ok ([], warnings)

/-- The `buildTxs`: resolve the five configured addresses (each may throw), then
dispatch on the action.  The `SELL_USHARE` constructor reaches the switch
default just like `QUESTION`/`UNSUPPORTED`. -/
def buildTxs (plan : Planned) (body : ChatBody)
    (offerings : List UShareOffering) (cfg : Config) :
    Except String (List TxPreview × List String) :=
  match asAddress cfg.URANO_STAKING "URANO_STAKING" with
  | .error e => .error e
  | .ok s =>
    match asAddress cfg.URANO_GOVERNANCE "URANO_GOVERNANCE" with
    | .error e => .error e
    | .ok g =>
      match asAddress cfg.USHARE_MARKET "USHARE_MARKET" with
      | .error e => .error e
      | .ok m =>
        match asAddress cfg.VESTING_ADDRESS "VESTING_ADDRESS" with
        | .error e => .error e
        | .ok v =>
          match asAddress cfg.USDC "USDC" with
          | .error e => .error e
          | .ok u => buildTxsWith plan body offerings cfg ⟨s, g, m, v, u⟩

/-! ### Response assembly and the POST / handler -/

/-- The `makeOut`: the fresh `crypto.randomUUID()` is supplied as `freshId`. -/
def makeOut (freshId : String) (cfg : Config) (plan : Planned)
    (txs : List TxPreview) (warnings : List String) : AssistantPlan :=
  let extrasDocs := match cfg.DOCS_URL with
    | some s => if jsTrim s ≠ "" then some s else none
    | none => none
  let extrasSupport := match cfg.SUPPORT_EMAIL with
    | some s => if jsTrim s ≠ "" then some s else none
    | none => none
  let docsUrl := match plan.docsUrl with
    | some s => some s
    | none => extrasDocs
  let supportEmail := match plan.supportEmail with
    | some s => some s
    | none => extrasSupport
  { id := freshId
    actionType := plan.actionType
    interpretation := plan.interpretation
    userMessage := plan.userMessage
    warnings := warnings
    txs := txs
    tx := txs.head?
    docsUrl := match docsUrl with
      | some s => if s ≠ "" then some s else none
      | none => none
    supportEmail := match supportEmail with
      | some s => if s ≠ "" then some s else none
      | none => none }

/-- HTTP outcome of `POST /` in `chatRoutes`. -/
inductive HttpResult where
  | badRequest
  | configError (message : String)
  | ok (plan : AssistantPlan)
  deriving DecidableEq, Repr

/-- The `POST /` handler: body validation, offerings load, planning, the
guarded build step (an exception becomes an empty list plus a warning), and
assembly.  `bodyParse` is the outcome of `ChatBodySchema.safeParse`,
`offeringsResult` the outcome of `getUShareOfferings()`. -/
def chatPost (freshId : String) (bodyParse : Option ChatBody)
    (offeringsResult : Except String (List UShareOffering))
    (reply : ProviderReply) (cfg : Config) : HttpResult :=
  match bodyParse with
  | none => .badRequest
  | some body =>
    match offeringsResult with
    | .error msg => .configError msg
    | .ok offerings =>
      let plan := (planFromMessages body offerings reply).1
      let built := buildTxs plan body offerings cfg
      let txs := match built with
        | .ok b => b.1
        | .error _ => []
      let warnings := match built with
        | .ok b => b.2
        | .error e => plan.warnings.getD [] ++ [e]
      .ok (makeOut freshId cfg plan txs warnings)

/-! ### Shared concrete fixtures for witnesses -/

def addrA : String := "0xaaaaaaaaaaaaaaaaaaaaaaaaaaaaaaaaaaaaaaaa"
def addrB : String := "0xbbbbbbbbbbbbbbbbbbbbbbbbbbbbbbbbbbbbbbbb"
def addrC : String := "0xcccccccccccccccccccccccccccccccccccccccc"
def addrD : String := "0xdddddddddddddddddddddddddddddddddddddddd"
def addrE : String := "0xeeeeeeeeeeeeeeeeeeeeeeeeeeeeeeeeeeeeeeee"

/-- A configuration with five distinct, valid contract addresses. -/
def cfgW : Config :=
  { URANO_STAKING := some addrA
    URANO_GOVERNANCE := some addrB
    USHARE_MARKET := some addrC
    VESTING_ADDRESS := some addrD
    USDC := some addrE }

def b32ones : String := "0x" ++ String.mk (List.replicate 64 '1')

def vdW : VestingData :=
  { beneficiary := addrA
    totalAmount := "100"
    cliffInSeconds := "10"
    vestingInSeconds := "20"
    tgePercentage := "5" }

def planClaimW : Planned :=
  { actionType := .CLAIM_VESTING, interpretation := "i", userMessage := "m" }

/-- Same address as `addrA` but upper-case: a case-insensitive match. -/
def acctUpperW : String := "0xAAAAAAAAAAAAAAAAAAAAAAAAAAAAAAAAAAAAAAAA"

def bodyClaimMismatchW : ChatBody :=
  { messages := [{ role := .user, content := "claim my vesting" }]
    context := some { account := some addrB, vesting := some ⟨vdW, [b32ones]⟩ } }

def bodyClaimMatchW : ChatBody :=
  { messages := [{ role := .user, content := "claim my vesting" }]
    context := some { account := some acctUpperW, vesting := some ⟨vdW, [b32ones]⟩ } }

def planBuyCx : Planned :=
  { actionType := .BUY_USHARE, interpretation := "i", userMessage := "m",
    amount := some "1", uShareId := some b32ones }

def bodyBuyCx : ChatBody :=
  { messages := [{ role := .user, content := "buy 1" }] }

/-- A configuration whose quote-currency (USDC) address coincides with the
market address — every variable is a valid address, so the build succeeds. -/
def cfgSameCx : Config :=
  { URANO_STAKING := some addrC
    URANO_GOVERNANCE := some addrC
    USHARE_MARKET := some addrC
    VESTING_ADDRESS := some addrC
    USDC := some addrC }

def planBuyW : Planned :=
  { actionType := .BUY_USHARE, interpretation := "i", userMessage := "m",
    amount := some "1", uShareId := some b32ones }

def milanoW : UShareOffering :=
  { name := "Milano Condo", symbol := "MILANO", uShareId := b32ones,
    uShareToken := addrA }

/-! ### C5 — the compatibility field `tx` -/

/-- Claim C5: for every assembled `AssistantPlan`, regardless of intent type,
`tx` is `null` exactly when `txs` is empty, and otherwise is structurally
identical to `txs[0]`. -/
theorem makeOut_tx_first_or_null (freshId : String) (cfg : Config)
    (plan : Planned) (txs : List TxPreview) (warnings : List String) :
    ((makeOut freshId cfg plan txs warnings).tx = none ↔
      (makeOut freshId cfg plan txs warnings).txs = []) ∧
    (∀ t rest, (makeOut freshId cfg plan txs warnings).txs = t :: rest →
      (makeOut freshId cfg plan txs warnings).tx = some t) := by
  cases txs <;> simp [makeOut]

/-- Concrete instance of `makeOut_tx_first_or_null`: a one-element list
yields `tx = some` of its head. -/
theorem makeOut_tx_first_or_null_witness :
    (makeOut "id0" {} helpMessage [⟨421614, addrA, .stakeAll, "0"⟩] []).tx =
      some ⟨421614, addrA, .stakeAll, "0"⟩ :=
  (makeOut_tx_first_or_null "id0" {} helpMessage
      [⟨421614, addrA, .stakeAll, "0"⟩] []).2
    ⟨421614, addrA, .stakeAll, "0"⟩ [] rfl

/-! ### C6 — the small-talk shortcut -/

/-- Claim C6: when the most recent user message matches the fixed
small-talk/greeting/help lexicon, the planner returns the canned help intent
with `actionType = QUESTION` and the external completion provider is never
called (the provider-called flag is `false`). -/
theorem smalltalk_shortcut (body : ChatBody) (offerings : List UShareOffering)
    (reply : ProviderReply)
    (h : isSmallTalkOrHelp (lastUserMessage body) = true) :
    planFromMessages body offerings reply = (helpMessage, false) ∧
    helpMessage.actionType = .QUESTION := by
  refine ⟨?_, rfl⟩
  simp [planFromMessages, h]

/-- Concrete instance of `smalltalk_shortcut`: the greeting "  Hello  "
short-circuits for every provider reply. -/
theorem smalltalk_shortcut_witness :
    planFromMessages { messages := [{ role := .user, content := "  Hello  " }] }
        [] .raised = (helpMessage, false) :=
  (smalltalk_shortcut { messages := [{ role := .user, content := "  Hello  " }] }
    [] .raised (by decide)).1

/-! ### C3 — planner degradation to the canned help intent -/

/-- Claim C3: for every request that reaches the external completion provider,
a raised provider call, a non-JSON reply, or a schema-invalid reply all make
the planner return the canned help intent with `actionType = QUESTION`, and
the endpoint still responds 200 (`HttpResult.ok`) with a `QUESTION`-type plan. -/
theorem planner_degrades_to_help (freshId : String) (body : ChatBody)
    (offerings : List UShareOffering) (reply : ProviderReply) (cfg : Config)
    (hmodel : isSmallTalkOrHelp (lastUserMessage body) = false)
    (hfail : reply = .raised ∨ reply = .unparsable ∨
      ∃ j, reply = .json j ∧ plannedSafeParse j = none) :
    planFromMessages body offerings reply = (helpMessage, true) ∧
    helpMessage.actionType = .QUESTION ∧
    ∃ ap, chatPost freshId (some body) (.ok offerings) reply cfg = .ok ap ∧
      ap.actionType = .QUESTION := by
  have hplan : planFromMessages body offerings reply = (helpMessage, true) := by
    rcases hfail with h | h | ⟨j, hj, hparse⟩
    · subst h; simp [planFromMessages, hmodel]
    · subst h; simp [planFromMessages, hmodel]
    · subst hj; simp [planFromMessages, hmodel, hparse]
  refine ⟨hplan, rfl, ?_⟩
  cases hb : buildTxs helpMessage body offerings cfg with
  | ok b =>
    exact ⟨makeOut freshId cfg helpMessage b.1 b.2,
      by simp [chatPost, hplan, hb], rfl⟩
  | error e =>
    exact ⟨makeOut freshId cfg helpMessage [] (helpMessage.warnings.getD [] ++ [e]),
      by simp [chatPost, hplan, hb], rfl⟩

/-- Concrete instance of `planner_degrades_to_help`: an unparsable reply to
"stake 5 tokens" still yields the help plan and an HTTP 200 result. -/
theorem planner_degrades_to_help_witness :
    planFromMessages { messages := [{ role := .user, content := "stake 5 tokens" }] }
        [] .unparsable = (helpMessage, true) :=
  (planner_degrades_to_help "id0"
      { messages := [{ role := .user, content := "stake 5 tokens" }] }
      [] .unparsable {} (by decide) (Or.inr (Or.inl rfl))).1

/-! ### C4 — build failures degrade to warnings, never to HTTP failure -/

/-- Claim C4: any exception in the build step is caught at the call site and
converted into an empty transaction list plus an explanatory warning, and the
HTTP call still succeeds (`HttpResult.ok`). -/
theorem build_failures_become_warnings (freshId : String) (body : ChatBody)
    (offerings : List UShareOffering) (reply : ProviderReply) (cfg : Config)
    (plan : Planned) (e : String)
    (hplan : (planFromMessages body offerings reply).1 = plan)
    (herr : buildTxs plan body offerings cfg = .error e) :
    chatPost freshId (some body) (.ok offerings) reply cfg =
      .ok (makeOut freshId cfg plan [] (plan.warnings.getD [] ++ [e])) ∧
    (makeOut freshId cfg plan [] (plan.warnings.getD [] ++ [e])).txs = [] ∧
    e ∈ (makeOut freshId cfg plan [] (plan.warnings.getD [] ++ [e])).warnings := by
  refine ⟨?_, rfl, by simp [makeOut]⟩
  simp [chatPost, hplan, herr]

/-- Concrete instance of `build_failures_become_warnings`: with no contract
addresses configured, the build step throws on `URANO_STAKING` and the
endpoint still returns an `ok` plan carrying the warning. -/
theorem build_failures_become_warnings_witness :
    chatPost "id0" (some { messages := [{ role := .user, content := "stake 5 tokens" }] })
        (.ok []) .raised {} =
      .ok (makeOut "id0" {} helpMessage []
        ["Missing/invalid URANO_STAKING address env var"]) :=
  (build_failures_become_warnings "id0"
      { messages := [{ role := .user, content := "stake 5 tokens" }] }
      [] .raised {} helpMessage
      "Missing/invalid URANO_STAKING address env var" rfl rfl).1

/-! ### C10 — no preview ever attaches native currency -/

/-- Every transaction list produced by the action switch consists of previews
with `value = "0"`. -/
theorem buildTxsWith_value_zero (plan : Planned) (body : ChatBody)
    (offerings : List UShareOffering) (cfg : Config) (A : ContractAddrs)
    (txs : List TxPreview) (w : List String)
    (h : buildTxsWith plan body offerings cfg A = .ok (txs, w)) :
    ∀ tx ∈ txs, tx.value = "0" := by
  intro tx htx
  unfold buildTxsWith at h
  cases hact : plan.actionType <;> simp only [hact] at h
  all_goals (repeat' split at h)
  all_goals
    (first
      | (simp only [Except.ok.injEq, Prod.mk.injEq] at h
         rcases h with ⟨h1, h2⟩
         subst h1
         simp only [List.mem_cons, List.not_mem_nil, or_false] at htx
         all_goals ((rcases htx with rfl | rfl) <;> rfl))
      | simp at h)

/-- A successful `buildTxs` factors through the action switch at some
resolved address tuple. -/
theorem buildTxs_ok_core (plan : Planned) (body : ChatBody)
    (offerings : List UShareOffering) (cfg : Config)
    (res : List TxPreview × List String)
    (h : buildTxs plan body offerings cfg = .ok res) :
    ∃ A, buildTxsWith plan body offerings cfg A = .ok res := by
  unfold buildTxs at h
  repeat' split at h
  all_goals first
    | exact ⟨_, h⟩
    | simp_all

/-- Claim C10: every transaction preview the builder produces, for every
action type, carries `value = "0"`. -/
theorem tx_value_always_zero (plan : Planned) (body : ChatBody)
    (offerings : List UShareOffering) (cfg : Config)
    (txs : List TxPreview) (w : List String)
    (h : buildTxs plan body offerings cfg = .ok (txs, w)) :
    ∀ tx ∈ txs, tx.value = "0" := by
  obtain ⟨A, hA⟩ := buildTxs_ok_core plan body offerings cfg (txs, w) h
  exact buildTxsWith_value_zero plan body offerings cfg A txs w hA

/-- Concrete instance of `tx_value_always_zero`: the staking preview built
for "stake 5" carries `value = "0"`. -/
theorem tx_value_always_zero_witness :
    (⟨421614, addrA, .stake 5000000000000000000, "0"⟩ : TxPreview).value = "0" :=
  tx_value_always_zero
    { actionType := .STAKE, interpretation := "i", userMessage := "m",
      amount := some "5" }
    { messages := [{ role := .user, content := "stake 5" }] } [] cfgW
    [⟨421614, addrA, .stake 5000000000000000000, "0"⟩] [] (by rfl)
    ⟨421614, addrA, .stake 5000000000000000000, "0"⟩ (by simp)

/-! ### C1 — the beneficiary-mismatch guard on CLAIM_VESTING -/

/-- When all five configured addresses validate, `buildTxs` is the action
switch at the resolved address tuple. -/
theorem buildTxs_eq_with (plan : Planned) (body : ChatBody)
    (offerings : List UShareOffering) (cfg : Config) (S G M V U : String)
    (hS : asAddress cfg.URANO_STAKING "URANO_STAKING" = .ok S)
    (hG : asAddress cfg.URANO_GOVERNANCE "URANO_GOVERNANCE" = .ok G)
    (hM : asAddress cfg.USHARE_MARKET "USHARE_MARKET" = .ok M)
    (hV : asAddress cfg.VESTING_ADDRESS "VESTING_ADDRESS" = .ok V)
    (hU : asAddress cfg.USDC "USDC" = .ok U) :
    buildTxs plan body offerings cfg =
      buildTxsWith plan body offerings cfg ⟨S, G, M, V, U⟩ := by
  unfold buildTxs
  rw [hS, hG, hM, hV, hU]

/-- Claim C1: for a `CLAIM_VESTING` intent whose request context provides both
an account and a vesting record (and whose five contract addresses are
configured), an account that differs case-insensitively from the vesting
beneficiary yields an empty transaction list plus the refusing warning — no
claim transaction is ever built for a mismatched beneficiary — while an
account equal to the beneficiary up to letter case yields the claim
transaction. -/
theorem claimVesting_beneficiary_guard (plan : Planned) (body : ChatBody)
    (offerings : List UShareOffering) (cfg : Config)
    (S G M V U acct : String) (vest : VestingCtx)
    (hact : plan.actionType = .CLAIM_VESTING)
    (hS : asAddress cfg.URANO_STAKING "URANO_STAKING" = .ok S)
    (hG : asAddress cfg.URANO_GOVERNANCE "URANO_GOVERNANCE" = .ok G)
    (hM : asAddress cfg.USHARE_MARKET "USHARE_MARKET" = .ok M)
    (hV : asAddress cfg.VESTING_ADDRESS "VESTING_ADDRESS" = .ok V)
    (hU : asAddress cfg.USDC "USDC" = .ok U)
    (hacct : body.context.bind (fun c => c.account) = some acct)
    (hne : acct ≠ "")
    (hvest : body.context.bind (fun c => c.vesting) = some vest) :
    (jsLower acct ≠ jsLower vest.data.beneficiary →
      buildTxs plan body offerings cfg =
        .ok ([], plan.warnings.getD [] ++
          ["Vesting claim blocked: connected account does not match the vesting beneficiary."])) ∧
    (jsLower acct = jsLower vest.data.beneficiary →
      buildTxs plan body offerings cfg =
        .ok ([⟨cfg.CHAIN_ID, V,
          .claim vest.data.beneficiary (decValStr vest.data.totalAmount)
            (decValStr vest.data.cliffInSeconds) (decValStr vest.data.vestingInSeconds)
            (decValStr vest.data.tgePercentage) vest.merkleProof, "0"⟩],
          plan.warnings.getD [])) := by
  have hbw := buildTxs_eq_with plan body offerings cfg S G M V U hS hG hM hV hU
  constructor
  · intro hmis
    rw [hbw]
    unfold buildTxsWith
    simp only [hact, hacct, hvest]
    rw [if_neg hne, if_pos hmis]
  · intro hmatch
    rw [hbw]
    unfold buildTxsWith
    simp only [hact, hacct, hvest]
    rw [if_neg hne, if_neg (not_not_intro hmatch)]

/-- Concrete instance of `claimVesting_beneficiary_guard`: account `addrB`
against beneficiary `addrA` is refused with no transactions, while the same
beneficiary address in different letter case builds the claim transaction. -/
theorem claimVesting_beneficiary_guard_witness :
    buildTxs planClaimW bodyClaimMismatchW [] cfgW =
      .ok ([], ["Vesting claim blocked: connected account does not match the vesting beneficiary."]) ∧
    buildTxs planClaimW bodyClaimMatchW [] cfgW =
      .ok ([⟨421614, addrD, .claim addrA 100 10 20 5 [b32ones], "0"⟩], []) := by
  constructor
  · exact (claimVesting_beneficiary_guard planClaimW bodyClaimMismatchW [] cfgW
      addrA addrB addrC addrD addrE addrB ⟨vdW, [b32ones]⟩
      rfl rfl rfl rfl rfl rfl rfl (by decide) rfl).1 (by decide)
  · exact (claimVesting_beneficiary_guard planClaimW bodyClaimMatchW [] cfgW
      addrA addrB addrC addrD addrE acctUpperW ⟨vdW, [b32ones]⟩
      rfl rfl rfl rfl rfl rfl rfl (by decide) rfl).2 (by decide)

/-! ### C2 — the two-transaction BUY_USHARE plan -/

/-- Counterexample to claim C2 as stated: with the USDC and market addresses
configured to the same value, a successful `BUY_USHARE` build produces two
previews whose targets are EQUAL, so "both targets are distinct contract
addresses" fails — the code never enforces distinctness. -/
theorem buyUShare_distinct_targets_cx :
    (buildTxs planBuyCx bodyBuyCx [] cfgSameCx).toOption.map
        (fun r => r.1.map (fun t => t.to)) = some [addrC, addrC] := by
  rfl

/-- Claim C2 (amended): when a `BUY_USHARE` intent has an amount and a
uShareId, the five addresses are configured and the amount parses at the
resolved decimals, the builder produces exactly the ordered pair of an
unlimited-allowance USDC approval (market as spender) followed by the market
buy call; the skippable-approval warning is always appended, and the
offering-naming confirmation exactly when the uShareId matches a configured
offering; the two targets are the configured USDC and market addresses, and
they are distinct whenever those configured values differ. -/
theorem buyUShare_two_ordered_previews (plan : Planned) (body : ChatBody)
    (offerings : List UShareOffering) (cfg : Config)
    (S G M V U a uid : String) (amt : Int)
    (hact : plan.actionType = .BUY_USHARE)
    (hS : asAddress cfg.URANO_STAKING "URANO_STAKING" = .ok S)
    (hG : asAddress cfg.URANO_GOVERNANCE "URANO_GOVERNANCE" = .ok G)
    (hM : asAddress cfg.USHARE_MARKET "USHARE_MARKET" = .ok M)
    (hV : asAddress cfg.VESTING_ADDRESS "VESTING_ADDRESS" = .ok V)
    (hU : asAddress cfg.USDC "USDC" = .ok U)
    (ha : plan.amount = some a) (hane : a ≠ "")
    (hid : plan.uShareId = some uid) (hidne : uid ≠ "")
    (hamt : parseUnits (normalizeAmountString a)
        (((offerings.find? (fun o => jsLower o.uShareId = jsLower uid)).bind
            (fun o => o.decimals)).getD (cfg.USHARE_DECIMALS.getD 18)) = .ok amt) :
    buildTxs plan body offerings cfg =
      .ok ([⟨cfg.CHAIN_ID, U, .approve M MAX_UINT256, "0"⟩,
            ⟨cfg.CHAIN_ID, M, .buyuShare uid amt, "0"⟩],
        (plan.warnings.getD [] ++ [skipTxWarning]) ++
          (match offerings.find? (fun o => jsLower o.uShareId = jsLower uid) with
           | some fo => ["Selected uShare: " ++ fo.name ++ " (" ++ fo.symbol ++ ")."]
           | none => [])) ∧
    (U ≠ M →
      (⟨cfg.CHAIN_ID, U, .approve M MAX_UINT256, "0"⟩ : TxPreview).to ≠
        (⟨cfg.CHAIN_ID, M, .buyuShare uid amt, "0"⟩ : TxPreview).to) := by
  refine ⟨?_, fun hUM => hUM⟩
  have hbw := buildTxs_eq_with plan body offerings cfg S G M V U hS hG hM hV hU
  rw [hbw]
  unfold buildTxsWith
  simp only [hact, ha, hid]
  rw [if_neg hane, if_neg hidne]
  cases hfound : offerings.find? (fun o => jsLower o.uShareId = jsLower uid) with
  | none =>
    rw [hfound] at hamt
    simp only [Option.none_bind] at hamt
    simp only [hfound, Option.none_bind]
    rw [hamt]
    simp
  | some fo =>
    rw [hfound] at hamt
    simp only [Option.some_bind] at hamt
    simp only [hfound, Option.some_bind]
    rw [hamt]

/-- Concrete instance of `buyUShare_two_ordered_previews`: with distinct
configured addresses the two previews target USDC (`addrE`) then the market
(`addrC`), in that order, with the skippable-approval warning. -/
theorem buyUShare_two_ordered_previews_witness :
    buildTxs planBuyW bodyBuyCx [] cfgW =
      .ok ([⟨421614, addrE, .approve addrC MAX_UINT256, "0"⟩,
            ⟨421614, addrC, .buyuShare b32ones 1000000000000000000, "0"⟩],
           [skipTxWarning]) ∧ addrE ≠ addrC := by
  have h := buyUShare_two_ordered_previews planBuyW bodyBuyCx [] cfgW
    addrA addrB addrC addrD addrE "1" b32ones 1000000000000000000
    rfl rfl rfl rfl rfl rfl rfl (by decide) rfl (by decide) (by rfl)
  exact ⟨h.1, by decide⟩

/-! ### C7 — free-text offering resolution priority -/

/-- Claim C7: free-text offering resolution follows a fixed priority, first
match wins: (1) a 64-hex-digit identifier pasted in the text — full offering
data when it matches a configured offering, the bare identifier with no label
otherwise; (2) with exactly one configured offering, that offering
unconditionally; (3) a case-insensitive substring/word match of a symbol or
name; when no stage matches, the result is `{id := null}`. -/
theorem resolveFromText_priority (offerings : List UShareOffering)
    (userText : String) :
    (∀ pasted, extractBytes32FromText userText = some pasted →
      (∀ fo, findOfferingById offerings pasted = some fo →
        resolveUShareSelectionFromText offerings userText =
          selectionFromOffering fo) ∧
      (findOfferingById offerings pasted = none →
        resolveUShareSelectionFromText offerings userText =
          { id := some pasted, label := none, decimals := none })) ∧
    (extractBytes32FromText userText = none →
      (∀ o, offerings = [o] →
        resolveUShareSelectionFromText offerings userText =
          selectionFromOffering o) ∧
      (offerings.length ≠ 1 →
        (∀ fo, offerings.find?
            (offeringTextMatch (" " ++ jsLower (jsTrim userText) ++ " ")) = some fo →
          resolveUShareSelectionFromText offerings userText =
            selectionFromOffering fo) ∧
        (offerings.find?
            (offeringTextMatch (" " ++ jsLower (jsTrim userText) ++ " ")) = none →
          resolveUShareSelectionFromText offerings userText =
            { id := none, label := none, decimals := none }))) := by
  constructor
  · intro pasted hp
    constructor
    · intro fo hfo
      simp only [resolveUShareSelectionFromText, hp, hfo]
    · intro hnf
      simp only [resolveUShareSelectionFromText, hp, hnf]
  · intro hnone
    constructor
    · rintro o rfl
      simp only [resolveUShareSelectionFromText, hnone]
      rfl
    · intro hlen
      constructor
      · intro fo hfo
        simp only [resolveUShareSelectionFromText, hnone]
        rw [dif_neg hlen]
        simp only [hfo]
      · intro hnf
        simp only [resolveUShareSelectionFromText, hnone]
        rw [dif_neg hlen]
        simp only [hnf]

/-- Concrete instance of `resolveFromText_priority`: a registry holding only
the MILANO offering resolves "buy 10 milano" to the identifier of that
offering. -/
theorem resolveFromText_priority_witness :
    resolveUShareSelectionFromText [milanoW] "buy 10 milano" =
      selectionFromOffering milanoW ∧
    (selectionFromOffering milanoW).id = some b32ones :=
  ⟨((resolveFromText_priority [milanoW] "buy 10 milano").2 (by rfl)).1
      milanoW rfl,
   rfl⟩

/-! ### C8 — decimal-to-bytes32 conversion -/

/-- With enough fuel, a number at least `16 ^ k` has more than `k` hex
digits. -/
theorem hexDigitsAux_length (fuel : Nat) : ∀ n k, n < fuel → 16 ^ k ≤ n →
    k + 1 ≤ (hexDigitsAux fuel n).length := by
  induction fuel with
  | zero => intro n k h _; omega
  | succ fuel ih =>
    intro n k hlt hpow
    unfold hexDigitsAux
    split
    · rename_i hn
      have hk : k = 0 := by
        by_contra hk0
        have h1 : (16:Nat) ^ 1 ≤ 16 ^ k :=
          Nat.pow_le_pow_right (by omega) (by omega)
        simp at h1
        omega
      subst hk
      simp
    · rename_i hn
      cases k with
      | zero => simp
      | succ k =>
        have h16 : 16 ^ k ≤ n / 16 := by
          rw [Nat.le_div_iff_mul_le (by omega : 0 < 16)]
          calc 16 ^ k * 16 = 16 ^ (k + 1) := by rw [pow_succ]
            _ ≤ n := hpow
        have hlt2 : n / 16 < fuel := by
          have hd : n / 16 < n := Nat.div_lt_self (by omega) (by omega)
          omega
        have hrec := ih (n / 16) k hlt2 h16
        simp only [List.length_append, List.length_cons, List.length_nil]
        omega

/-- The `n.toString(16)` has more than `k` digits once `n` reaches `16 ^ k`. -/
theorem hexDigits_length_lower (n k : Nat) (h : 16 ^ k ≤ n) :
    k + 1 ≤ (hexDigits n).length :=
  hexDigitsAux_length (n + 1) n k (by omega) h

/-- Counterexample to claim C8 as stated: zero-padding the hex form of
decimal `"100"` (hex `64`) to 64 digits yields `0x`, 62 zero digits and `64`
— not the 63 zero digits the claim names (which would be 65 hex digits). -/
theorem decimalToBytes32_pad_count_cx :
    decimalStringToBytes32 "100" =
      .ok ("0x" ++ String.mk (List.replicate 62 '0') ++ "64") ∧
    ("0x" ++ String.mk (List.replicate 62 '0') ++ "64") ≠
      ("0x" ++ String.mk (List.replicate 63 '0') ++ "64") :=
  ⟨by rfl, by decide⟩

/-- Claim C8 (amended): conversion of a decimal-string identifier is
deterministic, zero-padding the big-endian hex form to 64 hex digits — for
`"100"` the identifier is `0x`, 62 zero digits and `64` — and any decimal
value exceeding `2 ^ 256 - 1` makes the conversion fail. -/
theorem decimalToBytes32_padding_and_range :
    decimalStringToBytes32 "100" =
      .ok ("0x" ++ String.mk (List.replicate 62 '0') ++ "64") ∧
    ∀ dec : String, dec.data.all Char.isDigit = true → dec.data ≠ [] →
      2 ^ 256 - 1 < decValStr dec →
      decimalStringToBytes32 dec = .error "uShareId is too large for bytes32" := by
  refine ⟨by rfl, ?_⟩
  intro dec hdig hne hbig
  have hpow : (16:Nat) ^ 64 ≤ decValStr dec := by
    have he : (16:Nat) ^ 64 = 2 ^ 256 := by
      have h2 : (16:Nat) = 2 ^ 4 := by norm_num
      rw [h2, ← pow_mul]
    omega
  have hlen := hexDigits_length_lower (decValStr dec) 64 hpow
  unfold decimalStringToBytes32
  rw [if_pos (by simp [hdig, hne])]
  rw [if_pos (by simpa using (by omega : 64 < (hexDigits (decValStr dec)).length))]

set_option maxRecDepth 4096 in
/-- Concrete instance of `decimalToBytes32_padding_and_range`: the decimal
form of `2 ^ 256` is rejected. -/
theorem decimalToBytes32_padding_and_range_witness :
    decimalStringToBytes32
        "115792089237316195423570985008687907853269984665640564039457584007913129639936" =
      .error "uShareId is too large for bytes32" :=
  decimalToBytes32_padding_and_range.2
    "115792089237316195423570985008687907853269984665640564039457584007913129639936"
    (by decide) (by decide) (by decide)

/-! ### C9 — amount repair from the raw user text -/

/-- Claim C9: for a planned `STAKE`/`UNSTAKE`/`BUY_USHARE` intent whose amount
is missing or empty, if the raw text of the last user message contains a
decimal number the amount of the repaired intent is the first such number;
otherwise the missing-amount warning with example phrasing is appended. -/
theorem repair_infers_amount (plan : Planned) (last : String)
    (offerings : List UShareOffering)
    (hneeds : plan.actionType = .STAKE ∨ plan.actionType = .UNSTAKE ∨
      plan.actionType = .BUY_USHARE)
    (hmiss : plan.amount = none ∨ ∃ a, plan.amount = some a ∧ jsTrim a = "") :
    (∀ numStr, extractFirstNumber last = some numStr →
      (coercePlanFromUserText plan last offerings).amount = some numStr) ∧
    (extractFirstNumber last = none →
      "Missing amount. Example: \x27buy 100 uShares\x27 or \x27stake 250\x27." ∈
        ((coercePlanFromUserText plan last offerings).warnings.getD [])) := by
  have hna : (plan.actionType = ActionType.BUY_USHARE ||
      plan.actionType = ActionType.STAKE ||
      plan.actionType = ActionType.UNSTAKE) = true := by
    rcases hneeds with h | h | h <;> simp [h]
  have hmt : (match plan.amount with
      | none => true
      | some a => jsTrim a = "") = true := by
    rcases hmiss with hm | ⟨a, ha, hta⟩
    · simp [hm]
    · simp [ha, hta]
  constructor
  · intro numStr hnum
    unfold coercePlanFromUserText
    simp only [hna, hmt, Bool.and_self, if_true, hnum]
    rcases hneeds with h | h | h <;> simp only [h] <;> (repeat' split) <;> rfl
  · intro hnum
    unfold coercePlanFromUserText
    simp only [hna, hmt, Bool.and_self, if_true, hnum]
    rcases hneeds with h | h | h <;> simp only [h] <;> (repeat' split) <;>
      simp_all [missingUShareId]

/-- Concrete instance of `repair_infers_amount`: text "stake 250 please"
repairs a missing amount to "250". -/
theorem repair_infers_amount_witness :
    (coercePlanFromUserText
        { actionType := .STAKE, interpretation := "i", userMessage := "m" }
        "stake 250 please" []).amount = some "250" :=
  (repair_infers_amount
      { actionType := .STAKE, interpretation := "i", userMessage := "m" }
      "stake 250 please" [] (Or.inl rfl) (Or.inl rfl)).1 "250" (by rfl)

end UAssist
